import Mathlib

/-!
Shallow embedding of the file-listing HTTP service.

The service has three parts, each embedded below:
* the configuration resolver (source file config.py): the class body of
  Config runs two statements at import time, an unconditional environment
  assignment and a debug-flag computation;
* the route handler GET /api/meta (source file server/routes/logical_route.py,
  class GetDirectory, method get);
* the Python library calls the handler makes: os.getenv, os.listdir,
  os.path.getctime, os.path.isfile, os.path.splitext, and
  datetime.utcfromtimestamp followed by strftime.

The process environment is an association list of variables; the filesystem
is a record of the three observations the code makes of it (directory
listings, ctime metadata, the is-regular-file test).  Library calls that can
raise are embedded as Option-returning lookups, and the handler body as an
Except: an Except.error value marks the point where the Python code raises
an exception that the handler does not catch.
-/

/-- Process environment: a finite association list of variables, as
os.environ presents it.  Lookup of an absent variable yields none. -/
structure Env where
  vars : List (String × String)
deriving DecidableEq, Repr

/-- Lookup in an association list, first match wins (keys are unique in a
real environment, so the choice does not matter). -/
def lookupEnv : List (String × String) → String → Option String
  | [], _ => none
  | (k, v) :: rest, key => if k == key then some v else lookupEnv rest key

/-- Assignment in an association list: replace the binding in place if the
key is present, append it otherwise, as os.environ assignment behaves. -/
def setEnvList : List (String × String) → String → String → List (String × String)
  | [], k, v => [(k, v)]
  | (k0, v0) :: rest, k, v =>
      if k0 == k then (k, v) :: rest else (k0, v0) :: setEnvList rest k v

/-- os.environ.get(k) and os.getenv(k): some value, or none when unset. -/
def Env.get (e : Env) (k : String) : Option String :=
  lookupEnv e.vars k

/-- os.getenv(k, d): the value when set, the default d otherwise. -/
def Env.getD (e : Env) (k d : String) : String :=
  (Env.get e k).getD d

/-- Assignment os.environ[k] = v. -/
def Env.set (e : Env) (k v : String) : Env :=
  ⟨setEnvList e.vars k v⟩

/-- Filesystem state, recorded as the three observations the handler makes:
`dirs` maps a directory path to its entry names (os.listdir succeeds exactly
on these paths and raises FileNotFoundError elsewhere, embedded as none);
`ctimes` maps a path to its ctime in whole seconds (os.path.getctime raises
OSError on paths absent here, embedded as none); `files` is the set of paths
on which os.path.isfile returns True (it returns False, never raising, on
every other path). -/
structure FileSystem where
  dirs : List (String × List String)
  ctimes : List (String × Nat)
  files : List String
deriving DecidableEq, Repr

/-- os.listdir(p): the entry names of directory p, none when p is missing
(in Python, a FileNotFoundError is raised). -/
def FileSystem.listdir (fs : FileSystem) (p : String) : Option (List String) :=
  (fs.dirs.find? (fun e => e.1 == p)).map (fun e => e.2)

/-- int(os.path.getctime(p)): ctime in whole seconds, none when p cannot be
stat-ed (in Python, an OSError is raised). -/
def FileSystem.getctime (fs : FileSystem) (p : String) : Option Nat :=
  (fs.ctimes.find? (fun e => e.1 == p)).map (fun e => e.2)

/-- os.path.isfile(p): true exactly on regular files (following symlinks);
returns False rather than raising on any error. -/
def FileSystem.isfile (fs : FileSystem) (p : String) : Bool :=
  fs.files.contains p

/-- Index of the last occurrence of a character in a list, none when the
character does not occur: the str.rfind library call, with none standing
for the Python result -1. -/
def lastIdxOf (l : List Char) (c : Char) : Option Nat :=
  match l with
  | [] => none
  | a :: rest =>
    match lastIdxOf rest c with
    | some i => some (i + 1)
    | none => if a == c then some 0 else none

/-- os.path.splitext(p) on POSIX (sep "/", no altsep, extsep "."):
split at the last dot, provided that dot lies after the last separator and
at least one character strictly between the separator and that dot is not
itself a dot (so leading dots of the basename never start an extension).
Translated from genericpath.py in CPython. -/
def splitext (p : String) : String × String :=
  let l := p.data
  match lastIdxOf l '.' with
  | none => (p, "")
  | some d =>
    let sepN : Nat :=
      match lastIdxOf l '/' with
      | some i => i + 1
      | none => 0
    if sepN ≤ d ∧ ((l.drop sepN).take (d - sepN)).any (fun c => c != '.') then
      (String.mk (l.take d), String.mk (l.drop d))
    else (p, "")

/-- Zero-padded two-digit decimal field of strftime. -/
def pad2 (n : Nat) : String :=
  if n < 10 then "0" ++ toString n else toString n

/-- Gregorian civil date (year, month, day) of a day count since 1970-01-01,
the date computation inside datetime.utcfromtimestamp. -/
def civilFromDays (z : Nat) : Nat × Nat × Nat :=
  let w := z + 719468
  let era := w / 146097
  let doe := w % 146097
  let yoe := (doe - doe / 1460 + doe / 36524 - doe / 146097) / 365
  let y := yoe + era * 400
  let doy := doe - (365 * yoe + yoe / 4 - yoe / 100)
  let mp := (5 * doy + 2) / 153
  let d := doy - (153 * mp + 2) / 5 + 1
  let m := if mp < 10 then mp + 3 else mp - 9
  (if m ≤ 2 then y + 1 else y, m, d)

/-- datetime.utcfromtimestamp(ts).strftime of the pattern
"%Y-%m-%d %H:%M:%S": the UTC civil time of a POSIX timestamp, with
zero-padded fields. -/
def formatUtc (ts : Nat) : String :=
  let days := ts / 86400
  let secs := ts % 86400
  let ymd := civilFromDays days
  toString ymd.1 ++ "-" ++ pad2 ymd.2.1 ++ "-" ++ pad2 ymd.2.2 ++ " " ++
    pad2 (secs / 3600) ++ ":" ++ pad2 (secs % 3600 / 60) ++ ":" ++ pad2 (secs % 60)

/-- Configuration resolver, the class body of Config in config.py.  Its
first statement is the unconditional assignment os.environ["DIRECTORY"] = "./",
run once at import time; it returns the mutated process environment. -/
def Config.init (e : Env) : Env :=
  Env.set e "DIRECTORY" "./"

/-- Config.DEBUG in config.py: os.environ.get("PROJECT_DEBUG", False) == "True".
When the variable is unset, the Python expression compares the bool False
with the string "True", which is False. -/
def Config.DEBUG (e : Env) : Bool :=
  match Env.get e "PROJECT_DEBUG" with
  | some v => v == "True"
  | none => false

/-- One item of the response array built by the handler:
{"name": f, "type": os.path.splitext(f)[1], "time": t}. -/
structure FileEntry where
  name : String
  type : String
  time : String
deriving DecidableEq, Repr

/-- The value a successful handler run returns: the dict {"data": [...]}
together with the HTTP status 200 of the return statement. -/
structure Response where
  data : List FileEntry
  status : Nat
deriving DecidableEq, Repr

/-- Exceptions the handler body can raise and does not catch. -/
inductive PyError where
  /-- IndexError from directory[-1] on the empty string. -/
  | indexError : PyError
  /-- FileNotFoundError from os.listdir on a missing directory. -/
  | fileNotFound (path : String) : PyError
  /-- OSError from os.path.getctime on a path that cannot be stat-ed. -/
  | osError (path : String) : PyError
deriving DecidableEq, Repr

/-- The for-loop of the handler over the entries of os.listdir: for each
entry f, the code first computes int(os.path.getctime(directory + f)) and
formats it, and only then tests os.path.isfile(directory + f), appending
{name, type, time} when the test passes.  A getctime failure therefore
aborts the whole loop whether or not the entry is a regular file. -/
def listLoop (fs : FileSystem) (dir : String) : List String → Except PyError (List FileEntry)
  | [] => Except.ok []
  | f :: rest =>
    match fs.getctime (dir ++ f) with
    | none => Except.error (PyError.osError (dir ++ f))
    | some ts =>
      let t := formatUtc ts
      match listLoop fs dir rest with
      | Except.error e => Except.error e
      | Except.ok tail =>
        if fs.isfile (dir ++ f) then
          Except.ok ({ name := f, type := (splitext f).2, time := t } :: tail)
        else
          Except.ok tail

/-- The handler body from os.listdir onward, run on the normalized
directory path: enumerate, loop, and return the response with status 200. -/
def listAt (fs : FileSystem) (dir : String) : Except PyError Response :=
  match fs.listdir dir with
  | none => Except.error (PyError.fileNotFound dir)
  | some es =>
    match listLoop fs dir es with
    | Except.error e => Except.error e
    | Except.ok entries => Except.ok { data := entries, status := 200 }

/-- GetDirectory.get, the GET /api/meta handler of logical_route.py:
read directory = os.getenv("DIRECTORY", "./"); take directory[-1] (an
IndexError when the string is empty); append "/" when that last character
is not "/"; then list the directory.  The handler reads the environment on
every request and writes no process-wide state. -/
def GetDirectory.get (env : Env) (fs : FileSystem) : Except PyError Response :=
  let directory := Env.getD env "DIRECTORY" "./"
  match directory.data.getLast? with
  | none => Except.error PyError.indexError
  | some c => listAt fs (if c != '/' then directory ++ "/" else directory)

/-- The trailing-separator normalization of the handler, as a function of
the path alone ("" kept unchanged here; the handler raises on it before
normalizing). -/
def normalizeDir (d : String) : String :=
  match d.data.getLast? with
  | none => d
  | some c => if c != '/' then d ++ "/" else d

/-- One request as a transition on the process state: the handler reads the
environment and mutates nothing process-wide (its only assignments are to
the local variables directory, ts, t and resp), so the environment after
the request is the environment before it. -/
def GetDirectory.step (env : Env) (fs : FileSystem) : Except PyError Response × Env :=
  (GetDirectory.get env fs, env)

/-- Modelled from the spec: the extension of a filename as the spec defines
it, the substring of the filename beginning at the last period character,
inclusive, and the empty string when the filename contains no period.
Stated for comparison against the splitext computation of the code. -/
def specExtension (f : String) : String :=
  match lastIdxOf f.data '.' with
  | none => ""
  | some d => String.mk (f.data.drop d)

/-- A filename whose characters before its last period are all periods
(for example ".bashrc", with no character at all before the period):
exactly the filenames on which splitext declines to split. -/
def dotPrefixOnly (f : String) : Bool :=
  match lastIdxOf f.data '.' with
  | none => false
  | some d => (f.data.take d).all (fun c => c == '.')

/-- Test fixture: a filesystem whose directory /w/ holds a regular file and
a subdirectory, both of which can be stat-ed. -/
def fsFileAndSub : FileSystem :=
  ⟨[("/w/", ["a.txt", "sub"])], [("/w/a.txt", 0), ("/w/sub", 0)], ["/w/a.txt"]⟩

/-- Test fixture: a filesystem whose directory /w2/ holds a single
subdirectory entry and no regular file. -/
def fsSubOnly : FileSystem :=
  ⟨[("/w2/", ["sub"])], [("/w2/sub", 5)], []⟩

/-- Test fixture: a filesystem whose directory /d/ holds a regular file and
a dangling symlink named ghost, which cannot be stat-ed. -/
def fsDangling : FileSystem :=
  ⟨[("/d/", ["ghost", "real.txt"])], [("/d/real.txt", 0)], ["/d/real.txt"]⟩

/-- Test fixture: a filesystem whose directory /h/ holds one hidden file. -/
def fsHidden : FileSystem :=
  ⟨[("/h/", [".bashrc"])], [("/h/.bashrc", 0)], ["/h/.bashrc"]⟩

/-- Test fixture: a filesystem with the two directories ./ and /b/, only the
first of which holds a file. -/
def fsTwoDirs : FileSystem :=
  ⟨[("./", ["a.txt"]), ("/b/", [])], [("./a.txt", 0)], ["./a.txt"]⟩

/-- Test fixture: the empty filesystem, on which every os call fails. -/
def fsEmpty : FileSystem := ⟨[], [], []⟩

/-! Helper lemmas about the environment model. -/

theorem lookupEnv_setEnvList_same (l : List (String × String)) (k v : String) :
    lookupEnv (setEnvList l k v) k = some v := by
  induction l with
  | nil => simp [setEnvList, lookupEnv]
  | cons p rest ih =>
    by_cases h : p.1 = k
    · simp [setEnvList, lookupEnv, h]
    · simp [setEnvList, lookupEnv, h, ih]

theorem lookupEnv_setEnvList_ne (l : List (String × String)) (k k0 v : String)
    (hne : k0 ≠ k) : lookupEnv (setEnvList l k v) k0 = lookupEnv l k0 := by
  induction l with
  | nil => simp [setEnvList, lookupEnv, Ne.symm hne]
  | cons p rest ih =>
    by_cases h : p.1 = k
    · simp [setEnvList, lookupEnv, h, Ne.symm hne, ih]
    · simp only [setEnvList, lookupEnv, beq_iff_eq, h, if_false]
      by_cases h0 : p.1 = k0 <;> simp [lookupEnv, h0, ih]

theorem Env.get_set_same (e : Env) (k v : String) :
    Env.get (Env.set e k v) k = some v :=
  lookupEnv_setEnvList_same e.vars k v

theorem Env.get_set_ne (e : Env) (k k0 v : String) (hne : k0 ≠ k) :
    Env.get (Env.set e k v) k0 = Env.get e k0 :=
  lookupEnv_setEnvList_ne e.vars k k0 v hne

/-! Helper lemmas about splitext. -/

theorem lastIdxOf_eq_none (l : List Char) (c : Char) (h : c ∉ l) :
    lastIdxOf l c = none := by
  induction l with
  | nil => rfl
  | cons a rest ih =>
    simp only [List.mem_cons, not_or] at h
    simp [lastIdxOf, ih h.2, Ne.symm h.1]

theorem all_dot_eq_not_any (l : List Char) :
    (l.all (fun c => c == '.')) = !(l.any (fun c => c != '.')) := by
  induction l with
  | nil => rfl
  | cons a rest ih => simp [List.all_cons, List.any_cons, ih, bne, Bool.not_or]

/-! Helper lemmas about the listing loop. -/

theorem listLoop_ok_names (fs : FileSystem) (dir : String) :
    ∀ (es : List String) (entries : List FileEntry),
      listLoop fs dir es = Except.ok entries →
      entries.map FileEntry.name = es.filter (fun f => fs.isfile (dir ++ f)) := by
  intro es
  induction es with
  | nil =>
    intro entries h
    simp only [listLoop, Except.ok.injEq] at h
    simp [← h]
  | cons f rest ih =>
    intro entries h
    simp only [listLoop] at h
    cases hct : fs.getctime (dir ++ f) with
    | none => rw [hct] at h; exact absurd h (by simp)
    | some ts =>
      rw [hct] at h
      cases hrec : listLoop fs dir rest with
      | error e => rw [hrec] at h; exact absurd h (by simp)
      | ok tail =>
        rw [hrec] at h
        cases hf : fs.isfile (dir ++ f) with
        | true =>
          rw [hf] at h
          simp only [if_true, Except.ok.injEq] at h
          subst h
          simp [List.filter_cons, hf, ih tail hrec]
        | false =>
          rw [hf] at h
          simp only [Bool.false_eq_true, if_false, Except.ok.injEq] at h
          subst h
          simp [List.filter_cons, hf, ih tail hrec]

theorem listLoop_ok_ctime (fs : FileSystem) (dir : String) :
    ∀ (es : List String) (entries : List FileEntry),
      listLoop fs dir es = Except.ok entries →
      ∀ f ∈ es, (fs.getctime (dir ++ f)).isSome = true := by
  intro es
  induction es with
  | nil => intro entries _ f hf; exact absurd hf (List.not_mem_nil f)
  | cons g rest ih =>
    intro entries h f hf
    simp only [listLoop] at h
    cases hct : fs.getctime (dir ++ g) with
    | none => rw [hct] at h; exact absurd h (by simp)
    | some ts =>
      rw [hct] at h
      cases hrec : listLoop fs dir rest with
      | error e => rw [hrec] at h; exact absurd h (by simp)
      | ok tail =>
        rcases List.mem_cons.mp hf with hfg | hfr
        · subst hfg; simp [hct]
        · exact ih tail hrec f hfr

/-! Claim C1. -/

/-- Claim C1, counterexample: with DIRECTORY = /missing and no such
directory on the filesystem, the handler does not return any HTTP response,
let alone a 404: os.listdir raises FileNotFoundError, which the handler
does not catch.  The claim, which demands a 404 (or documented error
status) and no unhandled exception, is therefore false of the code. -/
theorem claimC1_counterexample :
    GetDirectory.get ⟨[("DIRECTORY", "/missing")]⟩ fsEmpty
      = Except.error (PyError.fileNotFound "/missing/") := rfl

/-- Claim C1, amended: for every configured directory that does not exist
at request time, the handler terminates in an unhandled FileNotFoundError
raised by os.listdir on the normalized path (which the web framework turns
into a generic 500); it never returns a 404 and never returns a silently
empty 200 list. -/
theorem claimC1_amended (env : Env) (fs : FileSystem) (d : String)
    (h1 : Env.getD env "DIRECTORY" "./" = d) (h2 : d ≠ "")
    (h3 : fs.listdir (normalizeDir d) = none) :
    GetDirectory.get env fs = Except.error (PyError.fileNotFound (normalizeDir d)) := by
  have hne : d.data ≠ [] := fun hd => h2 (String.ext (show d.data = ("" : String).data from hd))
  obtain ⟨c, hc⟩ : ∃ c, d.data.getLast? = some c := by
    cases hcl : d.data.getLast? with
    | none => exact absurd (List.getLast?_eq_none_iff.mp hcl) hne
    | some c => exact ⟨c, rfl⟩
  have hnorm : normalizeDir d = (if c != '/' then d ++ "/" else d) := by
    simp [normalizeDir, hc]
  simp only [GetDirectory.get, h1, hc]
  rw [← hnorm, listAt, h3]

/-- Claim C1, witness for the amended claim at DIRECTORY = /missing on the
empty filesystem. -/
theorem claimC1_witness :
    Env.getD ⟨[("DIRECTORY", "/missing")]⟩ "DIRECTORY" "./" = "/missing" ∧
    GetDirectory.get ⟨[("DIRECTORY", "/missing")]⟩ fsEmpty
      = Except.error (PyError.fileNotFound (normalizeDir "/missing")) :=
  ⟨rfl, claimC1_amended ⟨[("DIRECTORY", "/missing")]⟩ fsEmpty "/missing" rfl (by decide) rfl⟩

/-! Claim C2. -/

/-- Claim C2 is refuted by the code: the class body of Config runs the
unconditional assignment os.environ["DIRECTORY"] = "./" at process start,
so a DIRECTORY value already present in the process environment is
overwritten with the default instead of being preserved.  This theorem
evaluates the resolver on an environment that carries DIRECTORY = /data:
afterwards the variable holds "./", not /data. -/
theorem claimC2_code_eval :
    Env.get (Config.init ⟨[("DIRECTORY", "/data")]⟩) "DIRECTORY" = some "./" ∧
    (some "./" : Option String) ≠ some "/data" :=
  ⟨rfl, by decide⟩

/-! Claim C3. -/

/-- Claim C3, counterexample: the handler re-reads DIRECTORY from the
process environment on every request, so a change to the variable between
two requests changes which directory is listed.  Starting from the
configuration resolved at startup (DIRECTORY = "./"), the first request
lists ./ and returns one entry; after DIRECTORY is changed to /b/ the next
request lists /b/ and returns an empty list. -/
theorem claimC3_counterexample :
    GetDirectory.get (Config.init ⟨[]⟩) fsTwoDirs
      = Except.ok ⟨[⟨"a.txt", ".txt", "1970-01-01 00:00:00"⟩], 200⟩ ∧
    GetDirectory.get (Env.set (Config.init ⟨[]⟩) "DIRECTORY" "/b/") fsTwoDirs
      = Except.ok ⟨[], 200⟩ ∧
    ([⟨"a.txt", ".txt", "1970-01-01 00:00:00"⟩] : List FileEntry) ≠ [] :=
  ⟨rfl, rfl, by decide⟩

/-- Claim C3, amended: the directory listed by a request is determined by
the value the DIRECTORY environment variable has at request time, not by
the value resolved at startup: the handler calls os.getenv on every
request, and two requests whose environments agree on DIRECTORY produce
identical results, whatever their startup configuration was. -/
theorem claimC3_amended (e1 e2 : Env) (fs : FileSystem)
    (h : Env.get e1 "DIRECTORY" = Env.get e2 "DIRECTORY") :
    GetDirectory.get e1 fs = GetDirectory.get e2 fs := by
  simp only [GetDirectory.get, Env.getD, h]

/-- Claim C3, witness for the amended claim: two distinct environments that
agree on DIRECTORY give identical handler results. -/
theorem claimC3_witness :
    Env.get ⟨[("DIRECTORY", "/a/"), ("PROJECT_DEBUG", "True")]⟩ "DIRECTORY"
      = Env.get ⟨[("DIRECTORY", "/a/")]⟩ "DIRECTORY" ∧
    GetDirectory.get ⟨[("DIRECTORY", "/a/"), ("PROJECT_DEBUG", "True")]⟩ fsEmpty
      = GetDirectory.get ⟨[("DIRECTORY", "/a/")]⟩ fsEmpty :=
  ⟨rfl, claimC3_amended ⟨[("DIRECTORY", "/a/"), ("PROJECT_DEBUG", "True")]⟩
    ⟨[("DIRECTORY", "/a/")]⟩ fsEmpty rfl⟩

/-! Claim C4. -/

/-- Claim C4, counterexample: for the hidden file .bashrc the claim demands
type = ".bashrc" (the substring of the filename beginning at the last
period), but os.path.splitext treats leading dots as part of the stem and
the handler produces type = "". -/
theorem claimC4_counterexample :
    listAt fsHidden "/h/"
      = Except.ok ⟨[⟨".bashrc", "", "1970-01-01 00:00:00"⟩], 200⟩ ∧
    specExtension ".bashrc" = ".bashrc" ∧
    ("" : String) ≠ ".bashrc" :=
  ⟨rfl, rfl, by decide⟩

/-- Claim C4, amended: for every filename (no path separator in it, as
os.listdir yields), the type field equals the substring of the filename
beginning at the last period, inclusive, and equals the empty string when
the filename contains no period, with one exception the claim omits: when
every character before the last period is itself a period (hidden files
such as .bashrc, and in particular a leading-dot name with no second dot),
the type is the empty string as well.  For report.tar.gz the type is .gz
and for README it is the empty string, as the claim states. -/
theorem claimC4_amended (f : String) (h : '/' ∉ f.data) :
    (splitext f).2 = (if dotPrefixOnly f then "" else specExtension f) := by
  have hsep : lastIdxOf f.data '/' = none := lastIdxOf_eq_none f.data '/' h
  cases hd : lastIdxOf f.data '.' with
  | none => simp [splitext, specExtension, dotPrefixOnly, hd]
  | some d =>
    simp only [splitext, specExtension, dotPrefixOnly, hd, hsep]
    cases hany : (f.data.take d).any (fun c => c != '.') with
    | true =>
      have hall : (f.data.take d).all (fun c => c == '.') = false := by
        rw [all_dot_eq_not_any, hany]; rfl
      simp [Nat.zero_le, hany, hall]
    | false =>
      have hall : (f.data.take d).all (fun c => c == '.') = true := by
        rw [all_dot_eq_not_any, hany]; rfl
      simp [hany, hall]

/-- Claim C4, witness for the amended claim at the filename report.tar.gz,
whose type evaluates to .gz. -/
theorem claimC4_witness :
    '/' ∉ ("report.tar.gz" : String).data ∧
    (splitext "report.tar.gz").2
      = (if dotPrefixOnly "report.tar.gz" then "" else specExtension "report.tar.gz") :=
  ⟨by decide, claimC4_amended "report.tar.gz" (by decide)⟩

/-! Claim C5. -/

/-- Claim C5, counterexample: the handler computes
int(os.path.getctime(directory + f)) before it tests os.path.isfile, so a
dangling symlink ghost, which is not a regular file, is stat-ed anyway and
its OSError aborts the whole listing, contradicting the claim that an
unstattable non-file entry cannot make the listing fail. -/
theorem claimC5_counterexample :
    listAt fsDangling "/d/" = Except.error (PyError.osError "/d/ghost") ∧
    fsDangling.isfile "/d/ghost" = false :=
  ⟨rfl, rfl⟩

/-- Claim C5, amended: the handler extracts the creation timestamp of every
enumerated entry first and tests the regular-file property only afterwards;
consequently a listing can only succeed when every entry of the directory,
regular file or not, can be stat-ed, and an unstattable entry aborts the
listing with an OSError. -/
theorem claimC5_amended (fs : FileSystem) (d : String) (es : List String)
    (r : Response) (f : String)
    (hls : fs.listdir d = some es) (hok : listAt fs d = Except.ok r)
    (hf : f ∈ es) :
    (fs.getctime (d ++ f)).isSome = true := by
  simp only [listAt, hls] at hok
  cases hrec : listLoop fs d es with
  | error e => rw [hrec] at hok; exact absurd hok (by simp)
  | ok entries => exact listLoop_ok_ctime fs d es entries hrec f hf

/-- Claim C5, witness for the amended claim: a successful listing of a
directory holding only the subdirectory entry sub implies that the ctime
metadata of sub, a non-file, was read. -/
theorem claimC5_witness :
    fsSubOnly.listdir "/w2/" = some ["sub"] ∧
    listAt fsSubOnly "/w2/" = Except.ok ⟨[], 200⟩ ∧
    (fsSubOnly.getctime ("/w2/" ++ "sub")).isSome = true :=
  ⟨rfl, rfl, claimC5_amended fsSubOnly "/w2/" ["sub"] ⟨[], 200⟩ "sub" rfl rfl (by decide)⟩

/-! Claim C6. -/

/-- Claim C6, confirmed: after the configuration resolver has run, the
debug flag is true exactly when the PROJECT_DEBUG environment variable is
set and holds the exact string True; for every other value, and when the
variable is unset (the Python comparison of the default False against the
string "True"), the flag is false. -/
theorem claimC6 (e : Env) :
    Config.DEBUG (Config.init e) = (Env.get e "PROJECT_DEBUG" == some "True") := by
  have hpd : Env.get (Config.init e) "PROJECT_DEBUG" = Env.get e "PROJECT_DEBUG" :=
    Env.get_set_ne e "DIRECTORY" "PROJECT_DEBUG" "./" (by decide)
  cases hg : Env.get e "PROJECT_DEBUG" with
  | none => simp only [Config.DEBUG, hpd, hg]; rfl
  | some v => simp only [Config.DEBUG, hpd, hg]; rfl

/-! Claim C7. -/

/-- Claim C7, confirmed: whenever the handler body returns a response for a
readable directory, the data sequence holds exactly one FileEntry per entry
on which os.path.isfile is true, in enumeration order, and nothing else:
its names are precisely the filter of the enumerated entries by the
regular-file test, so subdirectories and other non-files never appear, and
the count of entries always equals the filesystem count of regular files
directly inside the directory (in particular it equals the full entry count
when the directory holds only regular files). -/
theorem claimC7 (fs : FileSystem) (d : String) (es : List String) (r : Response)
    (hls : fs.listdir d = some es) (hok : listAt fs d = Except.ok r) :
    r.data.map FileEntry.name = es.filter (fun f => fs.isfile (d ++ f)) ∧
    r.data.length = (es.filter (fun f => fs.isfile (d ++ f))).length ∧
    r.status = 200 := by
  simp only [listAt, hls] at hok
  cases hrec : listLoop fs d es with
  | error e => rw [hrec] at hok; exact absurd hok (by simp)
  | ok entries =>
    rw [hrec] at hok
    simp only [Except.ok.injEq] at hok
    subst hok
    have hmap := listLoop_ok_names fs d es entries hrec
    exact ⟨hmap, by rw [← hmap, List.length_map], rfl⟩

/-- Claim C7, witness on a directory holding the regular file a.txt and the
subdirectory sub: the response holds exactly the one file. -/
theorem claimC7_witness :
    fsFileAndSub.listdir "/w/" = some ["a.txt", "sub"] ∧
    (Response.mk [⟨"a.txt", ".txt", "1970-01-01 00:00:00"⟩] 200).data.map FileEntry.name
      = ["a.txt", "sub"].filter (fun f => fsFileAndSub.isfile ("/w/" ++ f)) ∧
    (Response.mk [⟨"a.txt", ".txt", "1970-01-01 00:00:00"⟩] 200).data.length
      = (["a.txt", "sub"].filter (fun f => fsFileAndSub.isfile ("/w/" ++ f))).length ∧
    (Response.mk [⟨"a.txt", ".txt", "1970-01-01 00:00:00"⟩] 200).status = 200 :=
  ⟨rfl, claimC7 fsFileAndSub "/w/" ["a.txt", "sub"]
    (Response.mk [⟨"a.txt", ".txt", "1970-01-01 00:00:00"⟩] 200) rfl rfl⟩

/-! Claim C8. -/

/-- Claim C8, confirmed for every nonempty directory path (the empty path,
on which the normalization raises instead, is the subject of claim C10): a
path separator is appended exactly when the path does not already end in
one, the result of normalizing an already-normalized path is unchanged,
and the handler behaves identically whether or not the configured path
carried a trailing separator. -/
theorem claimC8 (d : String) (h1 : d ≠ "") (h2 : d.data.getLast? ≠ some '/')
    (env : Env) (fs : FileSystem) :
    normalizeDir d = d ++ "/" ∧
    normalizeDir (d ++ "/") = d ++ "/" ∧
    GetDirectory.get (Env.set env "DIRECTORY" d) fs
      = GetDirectory.get (Env.set env "DIRECTORY" (d ++ "/")) fs := by
  have hne : d.data ≠ [] := fun hd => h1 (String.ext (show d.data = ("" : String).data from hd))
  obtain ⟨c, hc⟩ : ∃ c, d.data.getLast? = some c := by
    cases hcl : d.data.getLast? with
    | none => exact absurd (List.getLast?_eq_none_iff.mp hcl) hne
    | some c => exact ⟨c, rfl⟩
  have hcne : c ≠ '/' := fun hcc => h2 (by rw [hc, hcc])
  have hdp : ("/" : String).data = ['/'] := rfl
  have hslash : (d ++ "/").data.getLast? = some '/' := by
    rw [String.data_append, hdp]
    exact List.getLast?_concat _
  have hn1 : normalizeDir d = d ++ "/" := by simp [normalizeDir, hc, hcne]
  have hn2 : normalizeDir (d ++ "/") = d ++ "/" := by simp [normalizeDir, hslash]
  have hg1 : Env.getD (Env.set env "DIRECTORY" d) "DIRECTORY" "./" = d := by
    simp [Env.getD, Env.get_set_same]
  have hg2 : Env.getD (Env.set env "DIRECTORY" (d ++ "/")) "DIRECTORY" "./" = d ++ "/" := by
    simp [Env.getD, Env.get_set_same]
  refine ⟨hn1, hn2, ?_⟩
  simp only [GetDirectory.get, hg1, hg2, hc, hslash]
  simp [hcne]

/-- Claim C8, witness at the path /tmp without a trailing separator, on the
empty environment and filesystem. -/
theorem claimC8_witness :
    normalizeDir "/tmp" = "/tmp" ++ "/" ∧
    normalizeDir ("/tmp" ++ "/") = "/tmp" ++ "/" ∧
    GetDirectory.get (Env.set ⟨[]⟩ "DIRECTORY" "/tmp") fsEmpty
      = GetDirectory.get (Env.set ⟨[]⟩ "DIRECTORY" ("/tmp" ++ "/")) fsEmpty :=
  claimC8 "/tmp" (by decide) (by decide) ⟨[]⟩ fsEmpty

/-! Claim C9. -/

/-- Claim C9, confirmed: one request is a transition that leaves the
process environment unchanged (the handler only reads os.environ and
assigns local variables), so against a fixed filesystem two consecutive
invocations of the handler return equal responses, and in particular equal
data sequences, hence equal data sets. -/
theorem claimC9 (env : Env) (fs : FileSystem) :
    (GetDirectory.step (GetDirectory.step env fs).2 fs).1 = (GetDirectory.step env fs).1 ∧
    (GetDirectory.step env fs).2 = env :=
  ⟨rfl, rfl⟩

/-! Claim C10. -/

/-- Claim C10, confirmed: when the DIRECTORY environment variable holds the
empty string at request time, os.getenv returns that empty string (not the
default), the subscript directory[-1] of the normalization is out of
bounds, and the handler fails with an IndexError instead of producing any
HTTP response. -/
theorem claimC10 (env : Env) (fs : FileSystem)
    (h : Env.get env "DIRECTORY" = some "") :
    GetDirectory.get env fs = Except.error PyError.indexError := by
  simp only [GetDirectory.get, Env.getD, h, Option.getD_some]
  rfl

/-- Claim C10, witness at an environment whose DIRECTORY is the empty
string. -/
theorem claimC10_witness :
    Env.get ⟨[("DIRECTORY", "")]⟩ "DIRECTORY" = some "" ∧
    GetDirectory.get ⟨[("DIRECTORY", "")]⟩ fsEmpty = Except.error PyError.indexError :=
  ⟨rfl, claimC10 ⟨[("DIRECTORY", "")]⟩ fsEmpty rfl⟩
